import Mathlib

/-!
Verification of the Account Authentication & Token Issuance subsystem of
`surreal-actix` against its specification.

The development shallowly embeds the relevant Rust sources:
  - `src/domain/error.rs` (error taxonomy, `From` conversions, `flatten_errors`),
  - `src/services/account.rs` (`signup`, `signin`, `encrypt_password`, `verify_password`),
  - `src/services/jsonwebtoken.rs` (`generate_token`, `validate_token`),
  - `src/api/dto/validation.rs` (`is_email`, `is_password`, `is_name`),
  - the in-memory mock repository of `src/infrastructure/repositories/account.rs`.

External libraries (the `argon2` crate and the `jsonwebtoken` crate) are embedded
as idealized but fully executable models; each such definition documents the
modelling choice at its declaration.
-/

set_option maxHeartbeats 1000000

deriving instance DecidableEq for Except

namespace SurrealActix

/-! ## Error taxonomy (`src/domain/error.rs`) -/

namespace message

/-- Rust `message::CONFLICT`. -/
def CONFLICT : String := "Conflict with the current state of the resource"

/-- Rust `message::UNAUTHORIZED`. -/
def UNAUTHORIZED : String :=
  "The request was not successful because it lacks valid authentication credentials"

/-- Rust `message::UNPROCESSABLE_ENTITY`. -/
def UNPROCESSABLE_ENTITY : String :=
  "The server was unable to process the request because it contains invalid data"

/-- Rust `message::BAD_REQUEST`. -/
def BAD_REQUEST : String :=
  "The server would not process the request due to something the server considered to be a client error"

/-- Rust `message::INTERNAL_ERROR`. -/
def INTERNAL_ERROR : String :=
  "The server encountered an unexpected condition that prevented it from fulfilling the request"

/-- Rust `message::SERVICE_UNAVAILABLE`. -/
def SERVICE_UNAVAILABLE : String := "The server is not ready to handle the request"

end message

/-- Rust `AppError`: caller-visible `message` and `code`, plus an internal
`trace` that carries `#[serde(skip)]`, i.e. it is never serialized. -/
structure AppError where
  message : String
  code : Nat
  trace : Option String
  deriving DecidableEq, Repr

/-- Rust `AppError::Conflict` (status 409, custom message, no trace). -/
def AppError.Conflict (m : String) : AppError := ⟨m, 409, none⟩

/-- Rust `AppError::BadRequest` (status 400, custom message, no trace). -/
def AppError.BadRequest (m : String) : AppError := ⟨m, 400, none⟩

/-- Rust `AppError::UnprocessableEntity` (status 422, custom message, no trace). -/
def AppError.UnprocessableEntity (m : String) : AppError := ⟨m, 422, none⟩

/-- Rust `AppError::Unauthorized()` (status 401, fixed default message). -/
def AppError.Unauthorized : AppError := ⟨message.UNAUTHORIZED, 401, none⟩

/-- Rust `AppError::InternalError()` (status 500, fixed default message). -/
def AppError.InternalError : AppError := ⟨message.INTERNAL_ERROR, 500, none⟩

/-- Rust `AppError::ServiceUnavailable()` (status 503, fixed default message). -/
def AppError.ServiceUnavailable : AppError := ⟨message.SERVICE_UNAVAILABLE, 503, none⟩

/-- Rust method `AppError::trace`: keep code and message, set the trace field. -/
def AppError.withTrace (e : AppError) (m : String) : AppError := ⟨e.message, e.code, some m⟩

/-- Rust `AppResult<T>`. -/
abbrev AppResult (α : Type) := Except AppError α

/-- Serialization of `AppError` as performed by `ResponseError::error_response`
(serde of the struct): the `message` and `code` fields in declaration order;
the `trace` field is `#[serde(skip)]` and therefore absent from the output. -/
def serializeAppError (e : AppError) : String :=
  "\x7b\"message\":\"" ++ e.message ++ "\",\"code\":" ++ toString e.code ++ "\x7d"

/-! ## Argon2 password hashing (`src/services/account.rs` plus an idealized
model of the external `argon2`/`password-hash` crates) -/

/-- Rust `argon2::password_hash::errors::Error`: the error enum of the external
`password-hash` crate, imported by `src/domain/error.rs` as `Argon2Error`.
`Password` is the wrong-password case; all other variants describe parse or
parameter failures (a malformed PHC hash string, an invalid salt, ...). -/
inductive Argon2Error where
  | Algorithm
  | B64Encoding
  | Crypto
  | OutputSize
  | ParamNameDuplicated
  | ParamNameInvalid
  | ParamValueInvalid
  | ParamsMaxExceeded
  | Password
  | PhcStringField
  | PhcStringTrailingData
  | SaltInvalid
  | Version
  deriving DecidableEq, Repr

/-- Modelled from the spec: the `Display` text of the external argon2 error
(`error.to_string()` in `impl From<Argon2Error> for AppError`). The exact text
lives in the external crate and is carried only into the never-serialized
`trace` field, so the claims depend only on it being a function of the error. -/
def argon2ErrorText : Argon2Error → String
  | .Algorithm => "unsupported algorithm"
  | .B64Encoding => "B64 encoding invalid"
  | .Crypto => "cryptographic error"
  | .OutputSize => "output size unexpected"
  | .ParamNameDuplicated => "duplicate parameter"
  | .ParamNameInvalid => "invalid parameter name"
  | .ParamValueInvalid => "invalid parameter value"
  | .ParamsMaxExceeded => "maximum number of parameters exceeded"
  | .Password => "invalid password"
  | .PhcStringField => "password hash string missing field"
  | .PhcStringTrailingData => "password hash string contains trailing characters"
  | .SaltInvalid => "salt invalid"
  | .Version => "invalid algorithm version"

/-- Rust `impl From<Argon2Error> for AppError`: the wrong-password case becomes
`Unauthorized()`; every other argon2 error becomes `InternalError()` with the
cause recorded in the trace. -/
def appErrorOfArgon2 : Argon2Error → AppError
  | .Password => AppError.Unauthorized
  | e => AppError.InternalError.withTrace (argon2ErrorText e)

/-- Escape one character so that the result never contains a literal `'$'`
(used by the idealized PHC encoding below, mirroring how the real PHC format
B64-encodes salt and digest so that `'$'` only ever appears as a separator). -/
def escChar (c : Char) : List Char :=
  if c = '\\' then ['\\', '\\']
  else if c = '$' then ['\\', 'd']
  else [c]

/-- Escape a whole string (list of characters), characterwise. -/
def escape : List Char → List Char
  | [] => []
  | c :: cs => escChar c ++ escape cs

/-- Inverse of `escape`; fails on ill-formed escape sequences. -/
def unescape : List Char → Option (List Char)
  | [] => some []
  | c :: rest =>
    if c = '\\' then
      match rest with
      | [] => none
      | d :: tail =>
        if d = '\\' then (unescape tail).map (fun cs => '\\' :: cs)
        else if d = 'd' then (unescape tail).map (fun cs => '$' :: cs)
        else none
    else (unescape rest).map (fun cs => c :: cs)

/-- Split a character list at the first occurrence of `d`. -/
def splitAtFirst (d : Char) : List Char → Option (List Char × List Char)
  | [] => none
  | c :: cs =>
    if c = d then some ([], cs)
    else (splitAtFirst d cs).map (fun p => (c :: p.1, p.2))

/-- Drop an expected leading header from a character list; `none` when the
list does not start with that header. -/
def dropHeaderL : List Char → List Char → Option (List Char)
  | [], s => some s
  | _ :: _, [] => none
  | p :: ps, c :: cs => if c = p then dropHeaderL ps cs else none

/-- Header of the idealized PHC-format hash strings produced by
`encrypt_password` (the real strings start with this very text). -/
def phcHeader : List Char := "$argon2id$".data

/-- Result of `PasswordHash::new`: the parsed salt and the stored digest. -/
structure ParsedHash where
  salt : String
  digest : String
  deriving DecidableEq, Repr

/-- Modelled from the spec: `PasswordHash::new` of the external `password-hash`
crate, over the idealized PHC format `"$argon2id$" ++ escape salt ++ "$" ++ digest`.
A string without the header or the separator is a malformed hash string
(`PhcStringField`); an ill-formed salt is `SaltInvalid`; otherwise parsing
returns the embedded salt and digest, so verification is self-describing. -/
def parseHash (s : String) : Except Argon2Error ParsedHash :=
  match dropHeaderL phcHeader s.data with
  | none => .error .PhcStringField
  | some rest =>
    match splitAtFirst '$' rest with
    | none => .error .PhcStringField
    | some (saltE, digest) =>
      match unescape saltE with
      | none => .error .SaltInvalid
      | some salt => .ok ⟨String.mk salt, String.mk digest⟩

/-- Modelled from the spec: the Argon2id digest of a password with a given
salt, idealized as a collision-free (injective) function of the pair, standing
in for the external crate's memory-hard computation. The repository code treats
the digest as an opaque byte string, and the spec's properties assume exactly
collision-freeness. -/
def argon2Digest (password salt : String) : List Char :=
  escape salt.data ++ '|' :: escape password.data

/-- Rust `encrypt_password` (`src/services/account.rs`): hash the password with
a fresh salt. The salt drawn from `OsRng` by `SaltString::generate` is made an
explicit argument; `hash_password(...).map(|hash| hash.to_string())` renders
the self-describing PHC string. -/
def encrypt_password (salt : String) (password : String) : Except Argon2Error String :=
  .ok (String.mk (phcHeader ++ escape salt.data ++ '$' :: argon2Digest password salt))

/-- Rust `verify_password` (`src/services/account.rs`): parse the stored hash
(`PasswordHash::new`, propagating its error via `?`), recompute the digest from
the submitted password and the embedded salt, and compare; a mismatch is the
`Password` error of `Argon2::verify_password`. -/
def verify_password (password : String) (hash : String) : Except Argon2Error Unit :=
  match parseHash hash with
  | .error e => .error e
  | .ok ph =>
    if argon2Digest password ph.salt = ph.digest.data then .ok ()
    else .error .Password

/-! ## Accounts and the authentication service (`src/services/account.rs`,
mock repository of `src/infrastructure/repositories/account.rs`) -/

/-- Rust `Account` (`src/domain/models/account.rs`). -/
structure Account where
  id : String
  name : String
  email : String
  password : String
  deriving DecidableEq, Repr

/-- Rust `CreateAccount` (`src/domain/models/account.rs`). -/
structure CreateAccount where
  name : String
  email : String
  password : String
  deriving DecidableEq, Repr

/-- Rust `Credentials` (`src/domain/models/account.rs`). -/
structure Credentials where
  email : String
  password : String
  deriving DecidableEq, Repr

/-- Mock repository `is_account`: whether some stored account has this email
(`accounts.iter().any(|a| a.email == email)`). The repository state is the
`Vec<Account>` behind the mutex, passed explicitly. -/
def is_account (accounts : List Account) (email : String) : Bool :=
  accounts.any (fun a => a.email == email)

/-- Mock repository `find_one(FindByCol::Email(email))`:
`accounts.iter().find(|a| a.email == email).cloned()`. -/
def find_one (accounts : List Account) (email : String) : Option Account :=
  accounts.find? (fun a => a.email == email)

/-- Mock repository `signup`: build an `Account` with the repository-assigned
id `"ajkf"` and push it onto the stored vector; returns the account and the
new repository state. -/
def repoSignup (accounts : List Account) (new_account : CreateAccount) :
    Account × List Account :=
  let acc : Account := ⟨"ajkf", new_account.name, new_account.email, new_account.password⟩
  (acc, accounts ++ [acc])

/-- Rust `AccountServiceImpl::signin`: look up by email; absence is
`Unauthorized()`; otherwise `verify_password(credentials.password, account.password)?`,
whose argon2 error is converted by `From<Argon2Error> for AppError`. -/
def signin (accounts : List Account) (credentials : Credentials) : AppResult Account :=
  match find_one accounts credentials.email with
  | none => .error AppError.Unauthorized
  | some account =>
    match verify_password credentials.password account.password with
    | .error e => .error (appErrorOfArgon2 e)
    | .ok _ => .ok account

/-- Rust `AccountServiceImpl::signup`: pre-check existence by email and fail
with `Conflict("Account already exists")` leaving storage untouched; otherwise
replace the plaintext by its hash and delegate to the repository. The function
returns the result together with the repository state after the call; `salt`
models the random salt drawn inside `encrypt_password`. -/
def signup (salt : String) (accounts : List Account) (new_account : CreateAccount) :
    AppResult Account × List Account :=
  if is_account accounts new_account.email then
    (.error (AppError.Conflict "Account already exists"), accounts)
  else
    match encrypt_password salt new_account.password with
    | .error e => (.error (appErrorOfArgon2 e), accounts)
    | .ok hashed =>
      let r := repoSignup accounts ⟨new_account.name, new_account.email, hashed⟩
      (.ok r.1, r.2)

/-! ## Token service (`src/services/jsonwebtoken.rs` plus a symbolic model of
the external `jsonwebtoken` crate) -/

/-- Rust `Claims` (`src/domain/models/jsonwebtoken.rs`): subject, expiration
and issued-at in epoch seconds (`usize` in the source, `Nat` here). -/
structure Claims where
  sub : String
  exp : Nat
  iat : Nat
  deriving DecidableEq, Repr

/-- Modelled from the spec: the space of token strings seen by the external
`jsonwebtoken` crate. A structurally valid RS256 JWT is a signed payload,
identified by the id of the key pair whose private half signed it (signature
forgery being excluded by the crate's RSA verification); anything else is a
structurally malformed string. -/
inductive Token where
  | signed : Nat → Claims → Token
  | malformed : String → Token
  deriving DecidableEq, Repr

/-- Rust `AccessToken` (`src/domain/models/jsonwebtoken.rs`); the token string
is represented by the symbolic `Token` type above. -/
structure AccessToken where
  token : Token
  expiration : Nat
  deriving DecidableEq, Repr

/-- Rust `jsonwebtoken::errors::ErrorKind` (the variants relevant to decoding;
`Other` stands for the remaining variants, e.g. base64/json/utf8 failures). -/
inductive JwtErrorKind where
  | ExpiredSignature
  | InvalidToken
  | InvalidIssuer
  | InvalidSignature
  | InvalidAlgorithm
  | ImmatureSignature
  | InvalidAudience
  | InvalidSubject
  | Other
  deriving DecidableEq, Repr

/-- Modelled from the spec: the `Debug` text of the external jsonwebtoken error
(`format!("\x7berror:?\x7d")` in `validate_token`); carried only into the
never-serialized trace field. -/
def jwtErrorDebugText : JwtErrorKind → String
  | .ExpiredSignature => "Error(ExpiredSignature)"
  | .InvalidToken => "Error(InvalidToken)"
  | .InvalidIssuer => "Error(InvalidIssuer)"
  | .InvalidSignature => "Error(InvalidSignature)"
  | .InvalidAlgorithm => "Error(InvalidAlgorithm)"
  | .ImmatureSignature => "Error(ImmatureSignature)"
  | .InvalidAudience => "Error(InvalidAudience)"
  | .InvalidSubject => "Error(InvalidSubject)"
  | .Other => "Error(Other)"

/-- Modelled from the spec: `jsonwebtoken::decode::<Claims>` with
`Validation::new(Algorithm::RS256)`. Per the crate's documented behavior: a
string that is not a well-formed JWT fails with `InvalidToken`; a token whose
signature does not verify against the service's public key (it was signed by a
different key pair) fails with `InvalidSignature`; only then are the claims
validated, where an `exp` more than the default 60-second leeway in the past
fails with `ExpiredSignature`. `keyId` identifies the service's key pair and
`now` the current epoch second. -/
def jwtDecode (keyId : Nat) (now : Nat) : Token → Except JwtErrorKind Claims
  | .malformed _ => .error .InvalidToken
  | .signed k c =>
    if k ≠ keyId then .error .InvalidSignature
    else if c.exp + 60 < now then .error .ExpiredSignature
    else .ok c

/-- Rust `JsonWebTokenServiceImpl::generate_token`: stamp
`iat = now`, `exp = now + 3600` (one hour via `chrono::Duration::hours(1)`),
`sub = id`, sign with the service's private key (RS256 header), and return the
encoded token together with its expiration. `now` makes `Utc::now()` explicit;
encoding of well-formed claims does not fail in the model, matching the happy
path of `encode`. -/
def generate_token (keyId : Nat) (now : Nat) (id : String) : AppResult AccessToken :=
  let expiration := now + 3600
  let iat := now
  let claims : Claims := ⟨id, expiration, iat⟩
  let token := Token.signed keyId claims
  .ok ⟨token, expiration⟩

/-- Rust `JsonWebTokenServiceImpl::validate_token`: decode with the service's
public key; `ExpiredSignature`, `InvalidToken` and `InvalidIssuer` collapse to
`Unauthorized()`, every other decode error becomes `InternalError()` with the
debug text in the trace. -/
def validate_token (keyId : Nat) (now : Nat) (token : Token) : AppResult Claims :=
  match jwtDecode keyId now token with
  | .ok c => .ok c
  | .error e =>
    match e with
    | .ExpiredSignature => .error AppError.Unauthorized
    | .InvalidToken => .error AppError.Unauthorized
    | .InvalidIssuer => .error AppError.Unauthorized
    | _ => .error (AppError.InternalError.withTrace (jwtErrorDebugText e))

/-! ## Field validators (`src/api/dto/validation.rs`) -/

/-- Rust `validator::ValidationError`, restricted to the fields the repository
observes: the code and the optional message (the `params` map is never read by
`flatten_errors` or the validators). -/
structure ValidationError where
  code : String
  message : Option String
  deriving DecidableEq, Repr

/-- Rust `ValidationError::new("0").with_message(Cow::from(msg))`, the shape of
every error built in `src/api/dto/validation.rs`. -/
def vErr (msg : String) : ValidationError := ⟨"0", some msg⟩

/-- Modelled from the spec: `Display` for the external crate's
`ValidationError` (`error.to_string()` in `From<ValidationErrors>`): the
message when present, otherwise a generic text naming the code. -/
def validationErrorText (e : ValidationError) : String :=
  match e.message with
  | some m => m
  | none => "Validation error: " ++ e.code

/-- Membership in the special-character class `[#?!@$%^&*-]` of the
`STRONG_PASSWORD` regex. -/
def isSpecialChar (c : Char) : Bool :=
  c = '#' || c = '?' || c = '!' || c = '@' || c = '$' || c = '%' ||
  c = '^' || c = '&' || c = '*' || c = '-'

/-- Scan a character list past the first character satisfying `p`, returning
the remainder, or `none` when no character satisfies `p`. -/
def dropToSat (p : Char → Bool) : List Char → Option (List Char)
  | [] => none
  | c :: cs => if p c then some cs else dropToSat p cs

/-- Rust `STRONG_PASSWORD` regex
`^(?:[^A-Z]*[A-Z])[^a-z]*[a-z][^0-9]*[0-9][^#?!@$%^&*-]*[#?!@$%^&*-].*$`.
The regex has no alternation and each gap class is exactly the complement of
the literal class that follows it, so a match decomposes uniquely: the `[A-Z]`
must be the first uppercase of the string, the `[a-z]` the first lowercase
after it, the `[0-9]` the first digit after that, the final class the first
special character after that. The translation scans in that order. The `.*$`
tail is not vacuous: in the Rust regex crate `.` matches any character except
`'\n'` and `$` (without the multi-line flag) anchors only at the end of the
haystack, so the remainder after the matched special character must contain
no newline. -/
def strongPasswordMatch (s : List Char) : Bool :=
  match dropToSat Char.isUpper s with
  | none => false
  | some s1 =>
    match dropToSat Char.isLower s1 with
    | none => false
    | some s2 =>
      match dropToSat Char.isDigit s2 with
      | none => false
      | some s3 =>
        match dropToSat isSpecialChar s3 with
        | none => false
        | some s4 => s4.all (fun c => !(c = '\n'))

/-- Split at the last occurrence of `d` (used for the `\.[a-zA-Z]\x7b2,\x7d$`
tail of the email regex, whose suffix class contains no dot). -/
def splitAtLast (d : Char) (s : List Char) : Option (List Char × List Char) :=
  (splitAtFirst d s.reverse).map (fun p => (p.2.reverse, p.1.reverse))

/-- Membership in the local-part class `[a-zA-Z0-9._%+-]` of `EMAIL_REGEX`. -/
def emailLocalChar (c : Char) : Bool :=
  c.isAlpha || c.isDigit || c = '.' || c = '_' || c = '%' || c = '+' || c = '-'

/-- Membership in the domain class `[a-zA-Z0-9.-]` of `EMAIL_REGEX`. -/
def emailDomainChar (c : Char) : Bool :=
  c.isAlpha || c.isDigit || c = '.' || c = '-'

/-- Rust `EMAIL_REGEX` `^[a-zA-Z0-9._%+-]+@[a-zA-Z0-9.-]+\.[a-zA-Z]\x7b2,\x7d$`.
The local-part class contains no `'@'`, so the `'@'` of a match is the first
`'@'` of the string; the TLD class contains no `'.'`, so the `'.'` of a match
is the last `'.'` after the `'@'`. -/
def emailRegexMatch (s : List Char) : Bool :=
  match splitAtFirst '@' s with
  | none => false
  | some (lpart, rest) =>
    match splitAtLast '.' rest with
    | none => false
    | some (dom, tld) =>
      !lpart.isEmpty && lpart.all emailLocalChar &&
      !dom.isEmpty && dom.all emailDomainChar &&
      decide (2 ≤ tld.length) && tld.all Char.isAlpha

/-- Rust `is_email`: byte length (`str::len`, here `String.utf8ByteSize`) in
`[3,255]`, then the email regex; each failure has its own message. -/
def is_email (email : String) : Except ValidationError Unit :=
  if email.utf8ByteSize < 3 || email.utf8ByteSize > 255 then
    .error (vErr "Email must contain between 3 and 255 characters")
  else if !emailRegexMatch email.data then
    .error (vErr "Invalid email format")
  else .ok ()

/-- Rust `is_password`: byte length in `[8,72]` (short-circuiting), then the
`STRONG_PASSWORD` regex. -/
def is_password (password : String) : Except ValidationError Unit :=
  if password.utf8ByteSize < 8 || password.utf8ByteSize > 72 then
    .error (vErr "Password must contain between 8 and 72 characters")
  else if !strongPasswordMatch password.data then
    .error (vErr "Password must contain at least one uppercase letter, one lowercase letter, one digit and one special character")
  else .ok ()

/-- Rust `is_name`: byte length at least 3, no upper bound. -/
def is_name (name : String) : Except ValidationError Unit :=
  if name.utf8ByteSize < 3 then
    .error (vErr "Name must have at least 3 characters")
  else .ok ()

/-! ## Validation-error aggregation (`flatten_errors` and
`From<ValidationErrors>` in `src/domain/error.rs`) -/

/-- Rust `validator::ValidationErrorsKind`: per-field errors are either a list
of plain field errors, a nested struct's errors, or a map from list index to
the errors of that element. `ValidationErrors` (a map from field name to kind)
is represented as an association list. -/
inductive ValidationErrorsKind where
  | Field : List ValidationError → ValidationErrorsKind
  | Struct : List (String × ValidationErrorsKind) → ValidationErrorsKind
  | ListK : List (Nat × List (String × ValidationErrorsKind)) → ValidationErrorsKind

/-- Rust `validator::ValidationErrors`, as iterated by `errors.errors()`. -/
abbrev ValidationErrors := List (String × ValidationErrorsKind)

/-- Path computation of `flatten_errors`:
`path.as_ref().map(|path| [path, field].join(".")).unwrap_or(field)`. -/
def actualPathOf (path : Option String) (field : String) : String :=
  match path with
  | some p => p ++ "." ++ field
  | none => field

mutual

/-- Rust `flatten_errors` (`src/domain/error.rs`): recursively walk the error
structure, producing `(indent, path, error)` triples; a flat field keeps its
name (prefixed by `parent.` under a struct), and a list element extends the
path with `[index]` before recursing. -/
def flatten_errors (errors : ValidationErrors)
    (path : Option String) (indent : Option Nat) :
    List (Nat × String × ValidationError) :=
  match errors with
  | [] => []
  | (field, err) :: rest =>
    flattenEntry field err path indent ++ flatten_errors rest path indent

/-- Body of the `flat_map` closure of `flatten_errors`, for one
`(field, err)` entry. -/
def flattenEntry (field : String) (err : ValidationErrorsKind)
    (path : Option String) (indent : Option Nat) :
    List (Nat × String × ValidationError) :=
  match err with
  | .Field field_errors =>
    field_errors.map (fun error => (indent.getD 0, actualPathOf path field, error))
  | .ListK list_error =>
    flattenListEntries (actualPathOf path field) list_error (indent.getD 0)
  | .Struct struct_errors =>
    flatten_errors struct_errors (some (actualPathOf path field)) (some (indent.getD 0 + 1))

/-- The `ValidationErrorsKind::List` arm of `flatten_errors`: for each
`(index, errors)` pair recurse with the path extended by `[index]`. -/
def flattenListEntries (actual_path : String)
    (entries : List (Nat × ValidationErrors)) (ind : Nat) :
    List (Nat × String × ValidationError) :=
  match entries with
  | [] => []
  | (index, errors) :: rest =>
    flatten_errors errors (some (actual_path ++ "[" ++ toString index ++ "]")) (some (ind + 1)) ++
    flattenListEntries actual_path rest ind

end

/-- Insertion into a `serde_json::Map` (a `BTreeMap`: ordered by key, a
repeated key overwrites). -/
def mapInsert (k : String) (v : String) : List (String × String) → List (String × String)
  | [] => [(k, v)]
  | (k', v') :: rest =>
    match compare k k' with
    | .lt => (k, v) :: (k', v') :: rest
    | .eq => (k, v) :: rest
    | .gt => (k', v') :: mapInsert k v rest

/-- `serde_json::to_string` of a map of strings (string escaping omitted: no
key or message involved in the claims needs escaping). -/
def jsonOfMap (m : List (String × String)) : String :=
  "\x7b" ++ String.intercalate "," (m.map (fun p => "\"" ++ p.1 ++ "\":\"" ++ p.2 ++ "\"")) ++ "\x7d"

/-- Rust `impl From<ValidationErrors> for AppError`: flatten, insert each
`(field, error.to_string())` into a `serde_json::Map`, and wrap the JSON text
in `UnprocessableEntity` (the ValidationFailed kind, status 422). -/
def appErrorOfValidationErrors (errors : ValidationErrors) : AppError :=
  let map := (flatten_errors errors none none).foldl
    (fun m e => mapInsert e.2.1 (validationErrorText e.2.2) m) []
  AppError.UnprocessableEntity (jsonOfMap map)

/-! ## Helper lemmas -/

theorem mk_data (s : String) : String.mk s.data = s := rfl

theorem unescape_escape (cs : List Char) : unescape (escape cs) = some cs := by
  induction cs with
  | nil => rfl
  | cons c cs ih =>
    by_cases h1 : c = '\\'
    · subst h1
      simp [escape, escChar, unescape, ih]
    · by_cases h2 : c = '$'
      · subst h2
        simp [escape, escChar, unescape, ih]
      · have h3 : escape (c :: cs) = c :: escape cs := by
          simp [escape, escChar, h1, h2]
        rw [h3, unescape.eq_def]
        simp [h1, ih]

theorem dollar_not_mem_escChar (c : Char) : '$' ∉ escChar c := by
  by_cases h1 : c = '\\'
  · simp [escChar, h1]
  · by_cases h2 : c = '$'
    · simp [escChar, h1, h2]
    · simp [escChar, h1, h2]
      exact fun h => h2 h.symm

theorem dollar_not_mem_escape (cs : List Char) : '$' ∉ escape cs := by
  induction cs with
  | nil => simp [escape]
  | cons c cs ih =>
    intro h
    rcases List.mem_append.mp h with h | h
    · exact dollar_not_mem_escChar c h
    · exact ih h

theorem splitAtFirst_append (d : Char) (a b : List Char) (ha : d ∉ a) :
    splitAtFirst d (a ++ d :: b) = some (a, b) := by
  induction a with
  | nil => simp [splitAtFirst]
  | cons c cs ih =>
    have hcd : ¬(c = d) := by
      intro h
      exact ha (by simp [h])
    have ih2 := ih (fun h => ha (List.mem_cons_of_mem _ h))
    simp [splitAtFirst, hcd, ih2]

theorem dropHeaderL_append (p s : List Char) : dropHeaderL p (p ++ s) = some s := by
  induction p with
  | nil => rfl
  | cons c cs ih => simp [dropHeaderL, ih]

theorem parseHash_encodeHash (salt password : String) :
    parseHash (String.mk (phcHeader ++ escape salt.data ++ '$' :: argon2Digest password salt)) =
      .ok ⟨salt, String.mk (argon2Digest password salt)⟩ := by
  have hdata :
      (String.mk (phcHeader ++ escape salt.data ++ '$' :: argon2Digest password salt)).data =
        phcHeader ++ (escape salt.data ++ '$' :: argon2Digest password salt) := by
    simp
  simp [parseHash, hdata, dropHeaderL_append,
    splitAtFirst_append _ _ _ (dollar_not_mem_escape salt.data), unescape_escape, mk_data]

theorem escape_inj {a b : List Char} (h : escape a = escape b) : a = b := by
  have ha := unescape_escape a
  rw [h, unescape_escape] at ha
  exact (Option.some.inj ha).symm

theorem argon2Digest_inj {p q s : String} (h : argon2Digest p s = argon2Digest q s) :
    p = q := by
  unfold argon2Digest at h
  have h2 : '|' :: escape p.data = '|' :: escape q.data := List.append_cancel_left h
  have h3 : escape p.data = escape q.data := by
    injection h2
  have h4 : p.data = q.data := escape_inj h3
  exact congrArg String.mk h4

theorem verify_password_encrypt_self (salt p : String) :
    verify_password p
      (String.mk (phcHeader ++ escape salt.data ++ '$' :: argon2Digest p salt)) = .ok () := by
  rw [verify_password, parseHash_encodeHash]
  simp

theorem verify_password_encrypt_ne (salt : String) {p q : String} (hne : p ≠ q) :
    verify_password p
      (String.mk (phcHeader ++ escape salt.data ++ '$' :: argon2Digest q salt)) =
      .error .Password := by
  rw [verify_password, parseHash_encodeHash]
  have hd : ¬(argon2Digest p salt = (String.mk (argon2Digest q salt)).data) := by
    intro h
    exact hne (argon2Digest_inj h)
  simp [hd]

theorem dropToSat_of_sublist {p : Char → Bool} {c : Char} {rest s : List Char}
    (hsub : (c :: rest).Sublist s) (hc : p c = true) :
    ∃ s', dropToSat p s = some s' ∧ rest.Sublist s' := by
  induction s with
  | nil => cases hsub
  | cons x xs ih =>
    cases hsub with
    | cons _ hs =>
      by_cases hx : p x
      · exact ⟨xs, by simp [dropToSat, hx], ((List.Sublist.refl rest).cons c).trans hs⟩
      · obtain ⟨s', h1, h2⟩ := ih hs
        exact ⟨s', by simp [dropToSat, hx, h1], h2⟩
    | cons₂ _ hs =>
      exact ⟨xs, by simp [dropToSat, hc], hs⟩

theorem dropToSat_subset {p : Char → Bool} {s s' : List Char}
    (h : dropToSat p s = some s') : ∀ a ∈ s', a ∈ s := by
  induction s generalizing s' with
  | nil => exact absurd h (by simp [dropToSat])
  | cons c cs ih =>
    by_cases hc : p c
    · have h2 : s' = cs := by
        have := h
        simp [dropToSat, hc] at this
        exact this.symm
      subst h2
      exact fun a ha => List.mem_cons_of_mem c ha
    · have h2 : dropToSat p cs = some s' := by
        have := h
        simpa [dropToSat, hc] using this
      exact fun a ha => List.mem_cons_of_mem c (ih h2 a ha)

theorem strongPasswordMatch_of_chain {u lo d sp : Char} {s : List Char}
    (hsub : ([u, lo, d, sp]).Sublist s)
    (hu : u.isUpper = true) (hl : lo.isLower = true) (hd : d.isDigit = true)
    (hsp : isSpecialChar sp = true) (hnl : '\n' ∉ s) :
    strongPasswordMatch s = true := by
  obtain ⟨s1, h1, hsub1⟩ := dropToSat_of_sublist hsub hu
  obtain ⟨s2, h2, hsub2⟩ := dropToSat_of_sublist hsub1 hl
  obtain ⟨s3, h3, hsub3⟩ := dropToSat_of_sublist hsub2 hd
  obtain ⟨s4, h4, _⟩ := dropToSat_of_sublist hsub3 hsp
  have hsubset : ∀ a ∈ s4, a ∈ s := fun a ha =>
    dropToSat_subset h1 _ (dropToSat_subset h2 _ (dropToSat_subset h3 _
      (dropToSat_subset h4 a ha)))
  have hall : s4.all (fun c => !(c = '\n')) = true := by
    rw [List.all_eq_true]
    intro a ha
    simp only [Bool.not_eq_true']
    exact decide_eq_false (fun hc => hnl (hc ▸ hsubset a ha))
  simp [strongPasswordMatch, h1, h2, h3, h4, hall]

theorem signin_unknown_email (accounts : List Account) (cred : Credentials)
    (h : find_one accounts cred.email = none) :
    signin accounts cred = .error AppError.Unauthorized := by
  rw [signin, h]

theorem signin_wrong_password (accounts : List Account) (a : Account) (pwd : String)
    (ph : ParsedHash) (hfind : find_one accounts a.email = some a)
    (hparse : parseHash a.password = .ok ph)
    (hwrong : argon2Digest pwd ph.salt ≠ ph.digest.data) :
    signin accounts ⟨a.email, pwd⟩ = .error AppError.Unauthorized := by
  rw [signin]
  show (match find_one accounts a.email with
    | none => _
    | some account => _) = _
  rw [hfind]
  show (match verify_password pwd a.password with
    | .error e => Except.error (appErrorOfArgon2 e)
    | .ok _ => _) = _
  rw [verify_password, hparse]
  simp [hwrong, appErrorOfArgon2]

theorem parseHash_error_kind {s : String} {e : Argon2Error}
    (h : parseHash s = .error e) : e = .PhcStringField ∨ e = .SaltInvalid := by
  unfold parseHash at h
  split at h
  · exact Or.inl (by injection h with h2; exact h2.symm)
  · split at h
    · exact Or.inl (by injection h with h2; exact h2.symm)
    · split at h
      · exact Or.inr (by injection h with h2; exact h2.symm)
      · exact absurd h (by simp)

theorem signin_malformed_hash (accounts : List Account) (a : Account) (pwd : String)
    (e : Argon2Error) (hfind : find_one accounts a.email = some a)
    (hparse : parseHash a.password = .error e) :
    signin accounts ⟨a.email, pwd⟩ =
      .error (AppError.InternalError.withTrace (argon2ErrorText e)) := by
  rw [signin]
  show (match find_one accounts a.email with
    | none => _
    | some account => _) = _
  rw [hfind]
  show (match verify_password pwd a.password with
    | .error e => Except.error (appErrorOfArgon2 e)
    | .ok _ => _) = _
  rw [verify_password, hparse]
  rcases parseHash_error_kind hparse with h2 | h2 <;> subst h2 <;> rfl

/-! ## Claims -/

/-- Claim C1: for every stored account with a well-formed password hash,
signin with that account's email and a non-matching password returns exactly
the same error (the full `AppError`, hence the same Unauthorized kind and the
same message) as signin with an email for which no account exists. -/
theorem C1_signin_wrong_password_same_as_unknown_email
    (accounts : List Account) (a : Account) (pwd other_email : String) (ph : ParsedHash)
    (hfind : find_one accounts a.email = some a)
    (hparse : parseHash a.password = .ok ph)
    (hwrong : argon2Digest pwd ph.salt ≠ ph.digest.data)
    (hnone : find_one accounts other_email = none) :
    signin accounts ⟨a.email, pwd⟩ = .error AppError.Unauthorized ∧
    signin accounts ⟨other_email, pwd⟩ = .error AppError.Unauthorized :=
  ⟨signin_wrong_password accounts a pwd ph hfind hparse hwrong,
   signin_unknown_email accounts ⟨other_email, pwd⟩ hnone⟩

/-- Witness for C1 at a concrete repository state: one stored account with a
well-formed hash of `"p4ss"`, a wrong password `"wrong"`, and an absent email. -/
theorem C1_signin_wrong_password_same_as_unknown_email_witness :
    signin [⟨"1", "Test", "test@spacecraft.com", "$argon2id$salt$salt|p4ss"⟩]
        ⟨"test@spacecraft.com", "wrong"⟩ = .error AppError.Unauthorized ∧
    signin [⟨"1", "Test", "test@spacecraft.com", "$argon2id$salt$salt|p4ss"⟩]
        ⟨"other@spacecraft.com", "wrong"⟩ = .error AppError.Unauthorized :=
  C1_signin_wrong_password_same_as_unknown_email
    [⟨"1", "Test", "test@spacecraft.com", "$argon2id$salt$salt|p4ss"⟩]
    ⟨"1", "Test", "test@spacecraft.com", "$argon2id$salt$salt|p4ss"⟩
    "wrong" "other@spacecraft.com" ⟨"salt", "salt|p4ss"⟩
    (by decide) (by decide) (by decide) (by decide)

/-- Counterexample to C2 as stated: with a stored account whose password hash
string is malformed, signin returns `InternalError` with a trace, which is not
the Unauthorized outcome produced when no account exists for the email. -/
theorem C2_malformed_hash_not_unauthorized_cex :
    signin [⟨"1", "Test", "test@spacecraft.com", "not-a-phc-hash"⟩]
        ⟨"test@spacecraft.com", "p4ss"⟩ =
      .error (AppError.InternalError.withTrace (argon2ErrorText .PhcStringField)) ∧
    signin [] ⟨"test@spacecraft.com", "p4ss"⟩ = .error AppError.Unauthorized ∧
    AppError.InternalError.withTrace (argon2ErrorText .PhcStringField) ≠
      AppError.Unauthorized := by
  decide

/-- Claim C2, amended: when the email matches a stored account, a failed
verification against a well-formed stored hash (wrong password) yields the
same Unauthorized error as an unknown email, but a malformed stored hash
yields `InternalError` with the parse failure in the trace — a different
error from the unknown-email outcome. -/
theorem C2_verification_failures_classified
    (accounts : List Account) (a : Account) (pwd : String)
    (hfind : find_one accounts a.email = some a) :
    (∀ ph : ParsedHash, parseHash a.password = .ok ph →
      argon2Digest pwd ph.salt ≠ ph.digest.data →
      signin accounts ⟨a.email, pwd⟩ = .error AppError.Unauthorized) ∧
    (∀ e : Argon2Error, parseHash a.password = .error e →
      signin accounts ⟨a.email, pwd⟩ =
        .error (AppError.InternalError.withTrace (argon2ErrorText e)) ∧
      AppError.InternalError.withTrace (argon2ErrorText e) ≠ AppError.Unauthorized) := by
  constructor
  · intro ph hparse hwrong
    exact signin_wrong_password accounts a pwd ph hfind hparse hwrong
  · intro e hparse
    refine ⟨signin_malformed_hash accounts a pwd e hfind hparse, ?_⟩
    intro h
    have := congrArg AppError.code h
    simp [AppError.withTrace, AppError.InternalError, AppError.Unauthorized] at this

/-- Witness for the amended C2 at a concrete state: wrong password against a
well-formed hash gives Unauthorized; a malformed stored hash gives
InternalError. -/
theorem C2_verification_failures_classified_witness :
    signin [⟨"1", "Test", "test@spacecraft.com", "$argon2id$salt$salt|p4ss"⟩]
        ⟨"test@spacecraft.com", "wrong"⟩ = .error AppError.Unauthorized ∧
    (signin [⟨"1", "Test", "test@spacecraft.com", "not-a-phc-hash"⟩]
        ⟨"test@spacecraft.com", "wrong"⟩ =
      .error (AppError.InternalError.withTrace (argon2ErrorText .PhcStringField)) ∧
    AppError.InternalError.withTrace (argon2ErrorText .PhcStringField) ≠
      AppError.Unauthorized) :=
  ⟨(C2_verification_failures_classified
      [⟨"1", "Test", "test@spacecraft.com", "$argon2id$salt$salt|p4ss"⟩]
      ⟨"1", "Test", "test@spacecraft.com", "$argon2id$salt$salt|p4ss"⟩
      "wrong" (by decide)).1 ⟨"salt", "salt|p4ss"⟩ (by decide) (by decide),
   (C2_verification_failures_classified
      [⟨"1", "Test", "test@spacecraft.com", "not-a-phc-hash"⟩]
      ⟨"1", "Test", "test@spacecraft.com", "not-a-phc-hash"⟩
      "wrong" (by decide)).2 .PhcStringField (by decide)⟩

/-- Counterexample to C3 as stated: a structurally valid, unexpired token
signed with a key pair other than the service's (key id 1 against service key
id 0) fails decoding with `InvalidSignature`, which `validate_token` maps to
`InternalError`, not to Unauthorized. -/
theorem C3_wrong_key_not_unauthorized_cex :
    validate_token 0 1000 (Token.signed 1 ⟨"user", 4600, 1000⟩) =
      .error (AppError.InternalError.withTrace (jwtErrorDebugText .InvalidSignature)) ∧
    AppError.InternalError.withTrace (jwtErrorDebugText .InvalidSignature) ≠
      AppError.Unauthorized := by
  decide

/-- Claim C3, amended: `validate_token` never panics and returns Unauthorized
for an expired token and for a structurally malformed token string; a token
signed with a key other than the service's key pair instead yields
`InternalError` with the decode failure in the trace. -/
theorem C3_validate_token_error_classification
    (keyId now k : Nat) (c : Claims) (s : String) :
    validate_token keyId now (Token.malformed s) = .error AppError.Unauthorized ∧
    (c.exp + 60 < now →
      validate_token keyId now (Token.signed keyId c) = .error AppError.Unauthorized) ∧
    (k ≠ keyId →
      validate_token keyId now (Token.signed k c) =
        .error (AppError.InternalError.withTrace (jwtErrorDebugText .InvalidSignature))) := by
  refine ⟨rfl, ?_, ?_⟩
  · intro h
    simp [validate_token, jwtDecode, h]
  · intro h
    simp [validate_token, jwtDecode, h]

/-- Witness for the amended C3 at concrete inputs: a malformed string, an
expired self-signed token, and a token signed with a different key. -/
theorem C3_validate_token_error_classification_witness :
    validate_token 0 10000 (Token.malformed "bad") = .error AppError.Unauthorized ∧
    validate_token 0 10000 (Token.signed 0 ⟨"user", 100, 100⟩) =
      .error AppError.Unauthorized ∧
    validate_token 0 10000 (Token.signed 1 ⟨"user", 100, 100⟩) =
      .error (AppError.InternalError.withTrace (jwtErrorDebugText .InvalidSignature)) :=
  ⟨(C3_validate_token_error_classification 0 10000 1 ⟨"user", 100, 100⟩ "bad").1,
   (C3_validate_token_error_classification 0 10000 1 ⟨"user", 100, 100⟩ "bad").2.1 (by decide),
   (C3_validate_token_error_classification 0 10000 1 ⟨"user", 100, 100⟩ "bad").2.2 (by decide)⟩

/-- Counterexample to C4 as stated: `"1Abcdef-"` has byte length 8 and
contains an uppercase letter, a lowercase letter, a digit and a special
character, yet `is_password` rejects it — the digit precedes the first
uppercase letter, and the regex (having no lookaheads) requires the four
classes in order. -/
theorem C4_any_order_password_cex :
    ("1Abcdef-" : String).utf8ByteSize = 8 ∧
    "1Abcdef-".data.any Char.isUpper = true ∧
    "1Abcdef-".data.any Char.isLower = true ∧
    "1Abcdef-".data.any Char.isDigit = true ∧
    "1Abcdef-".data.any isSpecialChar = true ∧
    is_password "1Abcdef-" ≠ .ok () := by
  decide

/-- Claim C4, amended: a newline-free string with byte length in `[8,72]` is
accepted by `is_password` when the four required character classes occur in
the regex's order — some uppercase letter, later a lowercase letter, later a
digit, later a character of `#?!@$%^&*-` (a subsequence chain, not merely
presence in any positional order; the no-newline condition comes from the
regex's `.*$` tail, where `.` cannot match a newline). -/
theorem C4_is_password_accepts_ordered_classes (s : String)
    (h1 : 8 ≤ s.utf8ByteSize) (h2 : s.utf8ByteSize ≤ 72) (hnl : '\n' ∉ s.data)
    (hchain : ∃ u lo d sp : Char, u.isUpper = true ∧ lo.isLower = true ∧
      d.isDigit = true ∧ isSpecialChar sp = true ∧ ([u, lo, d, sp]).Sublist s.data) :
    is_password s = .ok () := by
  obtain ⟨u, lo, d, sp, hu, hl, hd, hsp, hsub⟩ := hchain
  have hm := strongPasswordMatch_of_chain hsub hu hl hd hsp hnl
  have hlt : ¬ s.utf8ByteSize < 8 := by omega
  have hgt : ¬ s.utf8ByteSize > 72 := by omega
  simp [is_password, hlt, hgt, hm]

/-- Witness for the amended C4: `"Ab1-wxyz"` is newline-free and has the four
classes in order. -/
theorem C4_is_password_accepts_ordered_classes_witness :
    is_password "Ab1-wxyz" = .ok () :=
  C4_is_password_accepts_ordered_classes "Ab1-wxyz" (by decide) (by decide) (by decide)
    ⟨'A', 'b', '1', '-', by decide, by decide, by decide, by decide, by decide⟩

/-- Claim C5: for any subject id (and any issuing instant), the generated
token's claims satisfy `exp - iat = 3600`, the returned expiration equals
`exp`, and validating the freshly generated token with the same key pair
succeeds and returns claims whose `sub` is the original id. -/
theorem C5_generate_validate_roundtrip (keyId now : Nat) (id : String) :
    ∃ tok : AccessToken, generate_token keyId now id = .ok tok ∧
      ∃ c : Claims, tok.token = Token.signed keyId c ∧
        c.exp - c.iat = 3600 ∧ tok.expiration = c.exp ∧ c.sub = id ∧
        validate_token keyId now tok.token = .ok c := by
  refine ⟨⟨Token.signed keyId ⟨id, now + 3600, now⟩, now + 3600⟩, rfl,
    ⟨id, now + 3600, now⟩, rfl, (by omega : now + 3600 - now = 3600), rfl, rfl, ?_⟩
  have hexp : ¬ (now + 3600 + 60 < now) := by omega
  simp [validate_token, jwtDecode, hexp]

/-- Claim C6: hashing is verifiable and binding — for valid passwords `p ≠ q`
(any salts), verification of `p` against `hash(p)` succeeds and verification
of `p` against `hash(q)` fails with the wrong-password error. -/
theorem C6_verify_roundtrip_and_mismatch (salt1 salt2 p q : String)
    (hp : is_password p = .ok ()) (hq : is_password q = .ok ()) (hne : p ≠ q) :
    ∃ hashp hashq : String,
      encrypt_password salt1 p = .ok hashp ∧ encrypt_password salt2 q = .ok hashq ∧
      verify_password p hashp = .ok () ∧ verify_password p hashq = .error .Password :=
  ⟨_, _, rfl, rfl, verify_password_encrypt_self salt1 p,
    verify_password_encrypt_ne salt2 hne⟩

/-- Witness for C6 with two concrete valid passwords and two salts. -/
theorem C6_verify_roundtrip_and_mismatch_witness :
    ∃ hashp hashq : String,
      encrypt_password "salt1" "stR0ngP4ssw0rd!" = .ok hashp ∧
      encrypt_password "salt2" "stR0ngP4ssw0rd?" = .ok hashq ∧
      verify_password "stR0ngP4ssw0rd!" hashp = .ok () ∧
      verify_password "stR0ngP4ssw0rd!" hashq = .error .Password :=
  C6_verify_roundtrip_and_mismatch "salt1" "salt2" "stR0ngP4ssw0rd!" "stR0ngP4ssw0rd?"
    (by decide) (by decide) (by decide)

/-- Claim C7: signup on an email that already belongs to a stored account
returns `Conflict ("Account already exists")` and leaves the repository state
unchanged; when the email is fresh, a signup adds exactly one account and a
second signup with the same email returns that same Conflict, leaving the
state produced by the first call unchanged. -/
theorem C7_signup_conflict_semantics
    (accounts : List Account) (na na2 : CreateAccount) (salt salt2 : String)
    (hemail : na2.email = na.email) :
    (is_account accounts na.email = true →
      signup salt accounts na =
        (.error (AppError.Conflict "Account already exists"), accounts)) ∧
    (is_account accounts na.email = false →
      (signup salt accounts na).2.length = accounts.length + 1 ∧
      signup salt2 (signup salt accounts na).2 na2 =
        (.error (AppError.Conflict "Account already exists"),
          (signup salt accounts na).2)) := by
  constructor
  · intro h
    simp [signup, h]
  · intro h
    have hstate : (signup salt accounts na).2 =
        accounts ++ [⟨"ajkf", na.name, na.email,
          String.mk (phcHeader ++ escape salt.data ++ '$' :: argon2Digest na.password salt)⟩] := by
      simp [signup, h, encrypt_password, repoSignup]
    constructor
    · rw [hstate]
      simp
    · have hacc : is_account (signup salt accounts na).2 na2.email = true := by
        rw [hstate, hemail]
        simp [is_account]
      rw [signup, hacc]
      simp

/-- Witness for C7: a duplicate signup against a one-account state, and a
fresh signup followed by a duplicate signup against the empty state. -/
theorem C7_signup_conflict_semantics_witness :
    signup "s1" [⟨"1", "Test", "dup@spacecraft.com", "h"⟩]
        ⟨"Test", "dup@spacecraft.com", "pw"⟩ =
      (.error (AppError.Conflict "Account already exists"),
        [⟨"1", "Test", "dup@spacecraft.com", "h"⟩]) ∧
    ((signup "s1" ([] : List Account) ⟨"Test", "new@spacecraft.com", "pw"⟩).2.length =
        ([] : List Account).length + 1 ∧
      signup "s2" (signup "s1" ([] : List Account) ⟨"Test", "new@spacecraft.com", "pw"⟩).2
          ⟨"Other", "new@spacecraft.com", "pw2"⟩ =
        (.error (AppError.Conflict "Account already exists"),
          (signup "s1" ([] : List Account) ⟨"Test", "new@spacecraft.com", "pw"⟩).2)) :=
  ⟨(C7_signup_conflict_semantics [⟨"1", "Test", "dup@spacecraft.com", "h"⟩]
      ⟨"Test", "dup@spacecraft.com", "pw"⟩ ⟨"Other", "dup@spacecraft.com", "x"⟩
      "s1" "s2" rfl).1 (by decide),
   (C7_signup_conflict_semantics ([] : List Account)
      ⟨"Test", "new@spacecraft.com", "pw"⟩ ⟨"Other", "new@spacecraft.com", "pw2"⟩
      "s1" "s2" rfl).2 (by decide)⟩

/-- Claim C8: the aggregator maps a flat field error to the key `field`, an
error inside a nested struct to `parent.field`, and an error inside a list
element to a key prefixed `parent[index]` (recursing into that element's
nested errors); the concrete struct with violated username / email /
addresses[0].street constraints flattens to exactly those three keys. -/
theorem C8_flatten_errors_paths (f p : String) (i : Nat) (es : List ValidationError) :
    flatten_errors [(f, .Field es)] none none = es.map (fun e => (0, f, e)) ∧
    flatten_errors [(p, .Struct [(f, .Field es)])] none none =
      es.map (fun e => (1, p ++ "." ++ f, e)) ∧
    flatten_errors [(p, .ListK [(i, [(f, .Field es)])])] none none =
      es.map (fun e => (1, p ++ "[" ++ toString i ++ "]" ++ "." ++ f, e)) ∧
    (flatten_errors
        [("username", .Field [vErr "Username must be at least 3 characters long"]),
         ("email", .Field [vErr "Invalid email format"]),
         ("addresses",
           .ListK [(0, [("street", .Field [vErr "Street must be at least 5 characters long"])])])]
        none none).map (fun x => x.2.1) =
      ["username", "email", "addresses[0].street"] := by
  refine ⟨?_, ?_, ?_, ?_⟩
  · simp [flatten_errors, flattenEntry, actualPathOf]
  · simp [flatten_errors, flattenEntry, actualPathOf]
  · simp [flatten_errors, flattenEntry, flattenListEntries, actualPathOf]
  · rfl

/-- Claim C9: two domain errors agreeing on code and message but differing in
the internal trace field (including present versus absent) serialize to
identical caller-visible bodies — the serializer never reads the trace. -/
theorem C9_trace_never_serialized (m : String) (c : Nat) (t1 t2 : Option String) :
    serializeAppError ⟨m, c, t1⟩ = serializeAppError ⟨m, c, t2⟩ := rfl

/-- Claim C10: the three validators measure UTF-8 bytes, not characters: a
7-character string of 2-byte characters passes the password minimum-length
check (it fails only the class check), a 37-character string of 2-byte
characters (74 bytes, at most 72 characters) is rejected with the password
length message, a 2-character string of 2-byte characters passes the email
`[3,255]` length check (failing only the format check) and passes the
3-minimum name check. -/
theorem C10_validators_count_bytes :
    ("ααααααα" : String).length = 7 ∧
    ("ααααααα" : String).utf8ByteSize = 14 ∧
    is_password "ααααααα" =
      .error (vErr "Password must contain at least one uppercase letter, one lowercase letter, one digit and one special character") ∧
    ("ααααααααααααααααααααααααααααααααααααα" : String).length = 37 ∧
    ("ααααααααααααααααααααααααααααααααααααα" : String).utf8ByteSize = 74 ∧
    is_password "ααααααααααααααααααααααααααααααααααααα" =
      .error (vErr "Password must contain between 8 and 72 characters") ∧
    ("αα" : String).length = 2 ∧
    ("αα" : String).utf8ByteSize = 4 ∧
    is_email "αα" = .error (vErr "Invalid email format") ∧
    is_name "αα" = .ok () := by
  decide

end SurrealActix
